import Mathlib

/-!
Verification of the `aws-text-to-sql` construct
(`src/patterns/gen-ai/aws-text-to-sql/index.ts`).

The construct builds an AWS Step Functions state machine via the CDK
chaining API. The shallow embedding below has three layers:

1. The orchestration graph as data (`graph`): one node per CDK state
   declared in the source, with the exact condition operators, JSON
   field paths, rule order, and `otherwise` targets of the source.
2. An interpreter (`advance` / `runN`) for that graph. The execution
   context is typed: each JSON path that the source ever reads or
   writes is a field of `Context`. Task-unit Lambda outputs, and the
   context supplied by an external reviewer resuming a feedback gate,
   are parameters (`Env`), since those collaborators live outside the
   construct. Per the interface description in the spec, a condition
   whose field path is absent simply does not match, so the choice
   falls to its `otherwise` branch.
3. The provisioning-time logic: `validateDbProps` (source lines
   919-940), database selection (source lines 341-359, 956-1015) and
   the secret wiring (source lines 350, 533, 574, 642-643), embedded
   as `Except`-valued functions.
-/

namespace TextToSql

/-- A JSON literal as used by the Step Functions conditions of this
state machine: the source only compares against string and boolean
literals. -/
inductive JsonLit where
  | str (s : String)
  | bool (b : Bool)
deriving DecidableEq

/-- The payload written under `$.queryConfig` by `reformulate_question`
(source line 655) and by every query-generator invocation (source lines
739, 748, 791): conditions read `semantic_layer_strategy`,
`sql_validation_strategy` and `execute_sql_strategy` from it, and the
feedback messages read `validated_sql_query`. Fields are optional
because the Lambda outputs are outside the construct. -/
structure QueryConfigPayload where
  validated_sql_query : Option String
  sql_validation_strategy : Option String
  execute_sql_strategy : Option String
  semantic_layer_strategy : Option String
deriving DecidableEq

/-- The payload written under `$.queryStatus` by `execute_query`
(source line 811): `is_autocorrect_required?` reads `status` (source
line 816) and `publish_query_result` reads `result` (source line 799). -/
structure QueryStatusPayload where
  status : Option String
  result : Option String
deriving DecidableEq

/-- The loop-counter object: `configure_count` writes
`\x7bcount: 3, index: 0, step: 1\x7d` (source lines 764-768). -/
structure IterCounter where
  count : Int
  index : Int
  step : Int
deriving DecidableEq

/-- What sits at `$.iterator`. `configure_count` (a Pass state) writes
the counter object directly at `$.iterator`, so there is no `Payload`
wrapper; the `iterator` Lambda task writes its invoke result at
`$.iterator`, whose payload lives under `$.iterator.Payload` together
with a `continue` flag. -/
inductive IteratorSlot where
  | raw (c : IterCounter)
  | payload (c : IterCounter) (cont : Bool)
deriving DecidableEq

/-- The execution context (`$`), typed: one field per root path the
source reads or writes. `queryConfig` and `queryStatus` hold the
`Payload` part of the respective Lambda invoke results; other parts of
the invoke results are never addressed by the source. -/
structure Context where
  user_question : Option String
  reformulated_user_question : Option String
  semantic_layer_strategy : Option String
  question_unique_id : Option String
  queryConfig : Option QueryConfigPayload
  queryStatus : Option QueryStatusPayload
  iterator : Option IteratorSlot
deriving DecidableEq

/-- The empty execution context. -/
def Context.empty : Context :=
  { user_question := none
    reformulated_user_question := none
    semantic_layer_strategy := none
    question_unique_id := none
    queryConfig := none
    queryStatus := none
    iterator := none }

/-- One node per Step Functions state declared in the source. -/
inductive SfnState where
  | reformulateQuestion
  | feedbackChoiceOne
  | reformulatedQuestionFeedback
  | queryGeneratorOne
  | feedbackChoiceThree
  | generatedQueryFeedbackOne
  | queryGeneratorTwo
  | feedbackChoiceTwo
  | generatedQueryFeedbackTwo
  | executeQueryChoice
  | queryExecutor
  | autocorrectChoice
  | configureCount
  | iterator
  | isCountReached
  | alternateQueryGenerator
  | publishQueryResult
deriving DecidableEq, Fintype

/-- Condition operators of the CDK `stepfunctions.Condition` API. The
source only ever builds `stringEquals` and `booleanEquals`; the
compound and presence operators exist in the API and are included so
that the claim that the graph never uses them is not vacuous. -/
inductive Cond where
  | stringEquals (path : String) (lit : String)
  | booleanEquals (path : String) (lit : Bool)
  | condAnd (a b : Cond)
  | condOr (a b : Cond)
  | condNot (a : Cond)
  | isPresent (path : String)
deriving DecidableEq

/-- A `stepfunctions.Choice`: optional `inputPath`, the `when` rules in
declaration order, and the optional `otherwise` target. -/
structure ChoiceDef where
  inputPath : Option String
  rules : List (Cond × SfnState)
  otherwise : Option SfnState
deriving DecidableEq

/-- What kind of work a non-choice state performs. -/
inductive TaskKind where
  | reformulate
  | generatorOne
  | generatorTwo
  | generatorAlternate
  | executor
  | iterate
  | configureCounter
  | gateReformulated
  | gateQueryPathOne
  | gateQueryPathTwo
deriving DecidableEq

/-- A node of the orchestration graph. -/
inductive NodeDef where
  | task (k : TaskKind) (next : SfnState)
  | choice (cd : ChoiceDef)
  | publishTask
deriving DecidableEq

/-- The orchestration graph, transcribed from the `.next` / `.when` /
`.otherwise` chaining in the source (lines 650-915):
`reformulate_question` (655) feeds `is_feedback_req_on_reformualted_question?`
(869-903), whose `when` goes through the reformulated-question feedback
gate (876) to `generate_query_path_one` (877) and
`is_feedback_req_on_generated_query_path_one?` (878-887), and whose
`otherwise` goes to `generate_query_path_two` (892) and
`is_feedback_req_on_generated_query_path_two?` (893-901); both reach
`is_query_execution_req?` (854-864), then `execute_query` (809) with
the autocorrect loop (812-833), and finally `publish_query_result`
(795-807). -/
def graph : SfnState → NodeDef
  | .reformulateQuestion => .task .reformulate .feedbackChoiceOne
  | .feedbackChoiceOne =>
      .choice
        { inputPath := some "$.queryConfig.Payload"
          rules := [(.stringEquals "$.semantic_layer_strategy" "human",
                     .reformulatedQuestionFeedback)]
          otherwise := some .queryGeneratorTwo }
  | .reformulatedQuestionFeedback => .task .gateReformulated .queryGeneratorOne
  | .queryGeneratorOne => .task .generatorOne .feedbackChoiceThree
  | .feedbackChoiceThree =>
      .choice
        { inputPath := none
          rules := [(.stringEquals "$.queryConfig.Payload.sql_validation_strategy" "human",
                     .generatedQueryFeedbackOne)]
          otherwise := some .executeQueryChoice }
  | .generatedQueryFeedbackOne => .task .gateQueryPathOne .executeQueryChoice
  | .queryGeneratorTwo => .task .generatorTwo .feedbackChoiceTwo
  | .feedbackChoiceTwo =>
      .choice
        { inputPath := none
          rules := [(.stringEquals "$.queryConfig.Payload.sql_validation_strategy" "human",
                     .generatedQueryFeedbackTwo)]
          otherwise := some .executeQueryChoice }
  | .generatedQueryFeedbackTwo => .task .gateQueryPathTwo .executeQueryChoice
  | .executeQueryChoice =>
      .choice
        { inputPath := none
          rules := [(.stringEquals "$.queryConfig.Payload.execute_sql_strategy" "disabled",
                     .publishQueryResult)]
          otherwise := some .queryExecutor }
  | .queryExecutor => .task .executor .autocorrectChoice
  | .autocorrectChoice =>
      .choice
        { inputPath := none
          rules := [(.stringEquals "$.queryStatus.Payload.status" "QUERY_ERROR",
                     .configureCount)]
          otherwise := some .publishQueryResult }
  | .configureCount => .task .configureCounter .iterator
  | .iterator => .task .iterate .isCountReached
  | .isCountReached =>
      .choice
        { inputPath := none
          rules := [(.booleanEquals "$.iterator.Payload.continue" true,
                     .alternateQueryGenerator)]
          otherwise := some .publishQueryResult }
  | .alternateQueryGenerator => .task .generatorAlternate .iterator
  | .publishQueryResult => .publishTask

/-- Resolve a condition field path (relative to the optional
`inputPath` of the enclosing choice) against the typed context. Only
the path combinations occurring in the source are populated; anything
else is an absent field. -/
def resolve (ctx : Context) (inputPath : Option String) (path : String) : Option JsonLit :=
  match inputPath with
  | some "$.queryConfig.Payload" =>
      match path with
      | "$.semantic_layer_strategy" =>
          (ctx.queryConfig.bind QueryConfigPayload.semantic_layer_strategy).map .str
      | _ => none
  | none =>
      match path with
      | "$.queryConfig.Payload.sql_validation_strategy" =>
          (ctx.queryConfig.bind QueryConfigPayload.sql_validation_strategy).map .str
      | "$.queryConfig.Payload.execute_sql_strategy" =>
          (ctx.queryConfig.bind QueryConfigPayload.execute_sql_strategy).map .str
      | "$.queryStatus.Payload.status" =>
          (ctx.queryStatus.bind QueryStatusPayload.status).map .str
      | "$.iterator.Payload.continue" =>
          match ctx.iterator with
          | some (.payload _ b) => some (.bool b)
          | _ => none
      | _ => none
  | _ => none

/-- Evaluate one condition against the context: exact equality against
the literal; a condition over an absent field does not match. -/
def condEval (ctx : Context) (inputPath : Option String) : Cond → Bool
  | .stringEquals path lit => decide (resolve ctx inputPath path = some (.str lit))
  | .booleanEquals path lit => decide (resolve ctx inputPath path = some (.bool lit))
  | .condAnd a b => condEval ctx inputPath a && condEval ctx inputPath b
  | .condOr a b => condEval ctx inputPath a || condEval ctx inputPath b
  | .condNot a => ! condEval ctx inputPath a
  | .isPresent path => (resolve ctx inputPath path).isSome

/-- The first `when` rule whose condition matches, in declaration
order. -/
def firstMatch (ctx : Context) (inputPath : Option String) :
    List (Cond × SfnState) → Option SfnState
  | [] => none
  | r :: rest =>
      if condEval ctx inputPath r.1 then some r.2 else firstMatch ctx inputPath rest

/-- The successor a choice selects: first matching rule, else
`otherwise` (none means the choice is stuck, which cannot happen in
this graph since every choice declares an `otherwise`). -/
def choiceTarget (cd : ChoiceDef) (ctx : Context) : Option SfnState :=
  match firstMatch ctx cd.inputPath cd.rules with
  | some t => some t
  | none => cd.otherwise

/-- The effective output of a choice state: its input filtered through
its `inputPath`. For `$.queryConfig.Payload`, the payload object
becomes the new root, so a root read of `semantic_layer_strategy`
afterwards sees the payload field; every other payload field sits at a
root path the downstream states never address. An absent payload
yields an empty root. -/
def applyInputPath (ctx : Context) : Option String → Context
  | none => ctx
  | some "$.queryConfig.Payload" =>
      { Context.empty with
          semantic_layer_strategy := ctx.queryConfig.bind QueryConfigPayload.semantic_layer_strategy }
  | some _ => Context.empty

/-- The message `publish_query_result` sends to the output queue
(source lines 795-807). -/
structure PublishMsg where
  result : Option String
  user_question : Option String
  question_unique_id : Option String
deriving DecidableEq

/-- Observable run statistics: invocation counts per task unit,
feedback messages per gate, each iterator output, and the published
messages. -/
structure Stats where
  reformulateCalls : Nat
  generatorCalls : Nat
  executorCalls : Nat
  iterateCalls : Nat
  gateCalls : Nat
  gate1Msgs : Nat
  gate2aMsgs : Nat
  gate2bMsgs : Nat
  iterOutputs : List (IterCounter × Bool)
  publishMsgs : List PublishMsg
deriving DecidableEq

/-- The all-zero statistics at the start of a run. -/
def Stats.zero : Stats :=
  { reformulateCalls := 0, generatorCalls := 0, executorCalls := 0
    iterateCalls := 0, gateCalls := 0, gate1Msgs := 0, gate2aMsgs := 0
    gate2bMsgs := 0, iterOutputs := [], publishMsgs := [] }

/-- The external collaborators of one run: the payload each Lambda
invocation returns (indexed by how many invocations of that unit
happened before), and the full context an external reviewer supplies
when resuming a feedback gate (the gates use `WAIT_FOR_TASK_TOKEN`
with no `resultPath`, so the resume payload replaces the whole
context). -/
structure Env where
  reformulateOut : QueryConfigPayload
  generatorOut : Nat → QueryConfigPayload
  executorOut : Nat → QueryStatusPayload
  iterateOut : Nat → IterCounter → IterCounter × Bool
  gateResume : Nat → Context

/-- The counter the iterate unit reads from `$.iterator`, whichever
shape the slot currently has. -/
def counterOf : Option IteratorSlot → IterCounter
  | some (.raw c) => c
  | some (.payload c _) => c
  | none => ⟨0, 0, 0⟩

/-- Build the published message from the context at
`publish_query_result` (source lines 797-806). -/
def mkPublishMsg (ctx : Context) : PublishMsg :=
  { result := ctx.queryStatus.bind QueryStatusPayload.result
    user_question := ctx.user_question
    question_unique_id := ctx.question_unique_id }

/-- Effect of one task state on context and statistics. -/
def applyTask (env : Env) (k : TaskKind) (ctx : Context) (st : Stats) :
    Context × Stats :=
  match k with
  | .reformulate =>
      ({ ctx with queryConfig := some env.reformulateOut },
       { st with reformulateCalls := st.reformulateCalls + 1 })
  | .generatorOne =>
      ({ ctx with queryConfig := some (env.generatorOut st.generatorCalls) },
       { st with generatorCalls := st.generatorCalls + 1 })
  | .generatorTwo =>
      ({ ctx with queryConfig := some (env.generatorOut st.generatorCalls) },
       { st with generatorCalls := st.generatorCalls + 1 })
  | .generatorAlternate =>
      ({ ctx with queryConfig := some (env.generatorOut st.generatorCalls) },
       { st with generatorCalls := st.generatorCalls + 1 })
  | .executor =>
      ({ ctx with queryStatus := some (env.executorOut st.executorCalls) },
       { st with executorCalls := st.executorCalls + 1 })
  | .iterate =>
      let out := env.iterateOut st.iterateCalls (counterOf ctx.iterator)
      ({ ctx with iterator := some (.payload out.1 out.2) },
       { st with iterateCalls := st.iterateCalls + 1
                 iterOutputs := st.iterOutputs ++ [out] })
  | .configureCounter =>
      ({ ctx with iterator := some (.raw ⟨3, 0, 1⟩) }, st)
  | .gateReformulated =>
      (env.gateResume st.gateCalls,
       { st with gateCalls := st.gateCalls + 1, gate1Msgs := st.gate1Msgs + 1 })
  | .gateQueryPathOne =>
      (env.gateResume st.gateCalls,
       { st with gateCalls := st.gateCalls + 1, gate2aMsgs := st.gate2aMsgs + 1 })
  | .gateQueryPathTwo =>
      (env.gateResume st.gateCalls,
       { st with gateCalls := st.gateCalls + 1, gate2bMsgs := st.gate2bMsgs + 1 })

/-- Whether a run is still at a state, has published and finished, or
is stuck (a choice without a matching rule and without `otherwise`;
never the case in this graph). -/
inductive Mode where
  | run (s : SfnState)
  | done
  | failed
deriving DecidableEq

/-- A machine configuration: statistics, context, and where control
sits. -/
structure Config where
  st : Stats
  ctx : Context
  mode : Mode
deriving DecidableEq

/-- One interpreter step. Finished and stuck configurations stay put. -/
def advance (env : Env) (cfg : Config) : Config :=
  match cfg.mode with
  | .done => cfg
  | .failed => cfg
  | .run s =>
      match graph s with
      | .publishTask =>
          { cfg with
              st := { cfg.st with publishMsgs := cfg.st.publishMsgs ++ [mkPublishMsg cfg.ctx] }
              mode := .done }
      | .choice cd =>
          match choiceTarget cd cfg.ctx with
          | some t => { cfg with ctx := applyInputPath cfg.ctx cd.inputPath, mode := .run t }
          | none => { cfg with mode := .failed }
      | .task k next =>
          let r := applyTask env k cfg.ctx cfg.st
          { st := r.2, ctx := r.1, mode := .run next }

/-- Run `n` interpreter steps. -/
def runN (env : Env) : Nat → Config → Config
  | 0, cfg => cfg
  | n + 1, cfg => runN env n (advance env cfg)

/-- A fresh run: the state machine definition starts at
`reformulate_question` (source line 869). -/
def initConfig (ctx0 : Context) : Config :=
  { st := Stats.zero, ctx := ctx0, mode := .run .reformulateQuestion }

/-! ## Basic interpreter lemmas -/

theorem runN_add (env : Env) (n k : Nat) (c : Config) :
    runN env (n + k) c = runN env k (runN env n c) := by
  induction n generalizing c with
  | zero => simp [runN]
  | succ n ih =>
      have h : n + 1 + k = (n + k) + 1 := by omega
      rw [h]
      simp only [runN]
      exact ih (advance env c)

theorem advance_done (env : Env) (cfg : Config) (h : cfg.mode = .done) :
    advance env cfg = cfg := by
  unfold advance
  rw [h]

theorem runN_done (env : Env) (n : Nat) (cfg : Config) (h : cfg.mode = .done) :
    runN env n cfg = cfg := by
  induction n with
  | zero => rfl
  | succ n ih => simp only [runN, advance_done env cfg h, ih]

theorem runN_done_eq (env : Env) (a b : Nat) (c : Config)
    (ha : (runN env a c).mode = .done) (hb : (runN env b c).mode = .done) :
    runN env a c = runN env b c := by
  rcases Nat.le_total a b with h | h
  · obtain ⟨k, rfl⟩ := Nat.exists_eq_add_of_le h
    rw [runN_add env a k c, runN_done env k _ ha]
  · obtain ⟨k, rfl⟩ := Nat.exists_eq_add_of_le h
    rw [runN_add env b k c, runN_done env k _ hb]

/-! ## Provisioning-time logic -/

/-- `DatabaseType` enum (source lines 45-48). -/
inductive DatabaseType where
  | AURORA
  | RDS
deriving DecidableEq, Fintype

/-- `DbName` enum (source lines 50-53). -/
inductive DbName where
  | MYSQL
  | POSTGRESQL
deriving DecidableEq, Fintype

/-- The fields of `TextToSqlProps` that the database validation,
database selection and secret wiring inspect. For the four optional
object references only their presence matters to that logic, so each
is a `Bool`; the remaining props (VPC, security groups, buckets,
custom Lambda code, ...) are plain resource plumbing never read by the
embedded functions and are omitted. -/
structure TextToSqlProps where
  existingAuroraDbCluster : Bool
  databaseClusterProps : Bool
  existingRdsDbInstance : Bool
  databaseInstanceProps : Bool
  dbName : DbName
  databaseType : Option DatabaseType
deriving DecidableEq, Fintype

/-- `validateDbProps` (source lines 919-940): three mutual-exclusion
checks, each throwing the message of the source. -/
def validateDbProps (p : TextToSqlProps) : Except String Unit :=
  if p.existingAuroraDbCluster && p.databaseClusterProps then
    .error "Only one of existingAuroraDbCluster or databaseClusterProps can be set at a time."
  else if p.databaseInstanceProps && p.existingRdsDbInstance then
    .error "Only one of databaseInstanceProps or existingRdsDbInstance can be set at a time."
  else if p.existingAuroraDbCluster && p.existingRdsDbInstance then
    .error "Only one of existingAuroraDbCluster or existingRdsDbInstance can be set at a time."
  else
    .ok ()

/-- How the `databaseCluster` field ends up populated. -/
inductive ClusterSource where
  | existing
  | fromProps
  | defaultAuroraMysql
deriving DecidableEq

/-- How the `dbInstance` field ends up populated. -/
inductive InstanceSource where
  | existing
  | fromProps
  | defaultRdsMysql
deriving DecidableEq

/-- The two database fields of the construct, each optional: the
source declares `databaseCluster!` and `dbInstance!` and assigns at
most one of them. -/
structure DbAssignment where
  databaseCluster : Option ClusterSource
  dbInstance : Option InstanceSource
deriving DecidableEq

/-- `createRdsInstance` (source lines 956-986): a default MySQL RDS
instance for `DbName.MYSQL`, and `throw new Error('Invalid database
name')` for every other name (the PostgreSQL case is commented out in
the source). -/
def createRdsInstance (p : TextToSqlProps) : Except String InstanceSource :=
  match p.dbName with
  | .MYSQL => .ok .defaultRdsMysql
  | _ => .error "Invalid database name"

/-- `createAuroraCluster` (source lines 988-1015): a default Aurora
MySQL cluster for `DbName.MYSQL`, and `throw new Error('Invalid
database name')` for every other name. -/
def createAuroraCluster (p : TextToSqlProps) : Except String ClusterSource :=
  match p.dbName with
  | .MYSQL => .ok .defaultAuroraMysql
  | _ => .error "Invalid database name"

/-- The database-selection if-chain of the constructor (source lines
341-359). The second component records whether `this.secret` was
created: the source assigns it only in the final else branch (line
350), right before creating the default database. -/
def selectDatabase (p : TextToSqlProps) : Except String (DbAssignment × Bool) :=
  if p.existingAuroraDbCluster then
    .ok ({ databaseCluster := some .existing, dbInstance := none }, false)
  else if p.databaseClusterProps then
    .ok ({ databaseCluster := some .fromProps, dbInstance := none }, false)
  else if p.existingRdsDbInstance then
    .ok ({ databaseCluster := none, dbInstance := some .existing }, false)
  else if p.databaseInstanceProps then
    .ok ({ databaseCluster := none, dbInstance := some .fromProps }, false)
  else
    match p.databaseType with
    | some .RDS => do
        let i ← createRdsInstance p
        .ok ({ databaseCluster := none, dbInstance := some i }, true)
    | _ => do
        let c ← createAuroraCluster p
        .ok ({ databaseCluster := some c, dbInstance := none }, true)

/-- Outcome of a completed construction. -/
structure Construction where
  db : DbAssignment
  secretCreated : Bool
deriving DecidableEq

/-- The constructor of `TextToSql` restricted to the steps the claims
are about, in source order: `validateDbProps` runs first (line 280),
before any resource is instantiated; the database selection runs at
lines 341-359; afterwards `queryGeneratorFunctionProps` and
`queryExecutorFunctionProps` read `this.secret.secretArn` (lines 533
and 574) and `this.secret.grantRead` is called (lines 642-643)
unconditionally, which in TypeScript throws a `TypeError` whenever
`this.secret` was never assigned. The VPC, security-group, log,
bucket, Lambda and queue resources built in between never throw and
are claim-irrelevant plumbing. -/
def textToSqlConstructor (p : TextToSqlProps) : Except String Construction :=
  match validateDbProps p with
  | .error e => .error e
  | .ok _ =>
      match selectDatabase p with
      | .error e => .error e
      | .ok (db, secretCreated) =>
          if secretCreated then
            .ok { db := db, secretCreated := secretCreated }
          else
            .error "TypeError: Cannot read properties of undefined (reading secretArn)"

/-! ## Graph observers -/

/-- The successor states of a node, `when` targets in declaration
order followed by `otherwise`. -/
def succs (s : SfnState) : List SfnState :=
  match graph s with
  | .task _ n => [n]
  | .choice cd => (cd.rules.map Prod.snd) ++ cd.otherwise.toList
  | .publishTask => []

/-- `reachesN n a b`: there is a path of at most `n` edges from `a` to
`b` along `succs`. With 17 nodes, `reachesN 16` from any successor
already decides reachability. -/
def reachesN : Nat → SfnState → SfnState → Bool
  | 0, a, b => decide (a = b)
  | n + 1, a, b => decide (a = b) || (succs a).any (fun c => reachesN n c b)

/-- `s` lies on a cycle: some successor of `s` reaches `s` back. -/
def onCycle (s : SfnState) : Bool :=
  (succs s).any (fun c => reachesN 16 c s)

/-- A condition is a plain single-field exact equality against a
string or boolean literal. -/
def simpleEquals : Cond → Bool
  | .stringEquals _ _ => true
  | .booleanEquals _ _ => true
  | _ => false

/-- A node is a well-formed branch point in the sense of the design:
if it is a choice, every rule is a `simpleEquals` condition and an
`otherwise` branch is declared. -/
def nodeWellFormed : NodeDef → Bool
  | .choice cd => cd.rules.all (fun r => simpleEquals r.1) && cd.otherwise.isSome
  | _ => true

/-- Target of a first matching rule is among the rule targets. -/
theorem firstMatch_mem (ctx : Context) (ip : Option String)
    (rules : List (Cond × SfnState)) (u : SfnState)
    (hf : firstMatch ctx ip rules = some u) : u ∈ rules.map Prod.snd := by
  induction rules with
  | nil => simp [firstMatch] at hf
  | cons r rest ih =>
      rw [firstMatch] at hf
      by_cases hcond : condEval ctx ip r.1
      · simp [hcond] at hf
        simp [hf]
      · simp [hcond] at hf
        simp [ih hf]

/-- Validation of the interpreter against the graph observers: a step
that moves from state `s` to state `t` only ever moves along `succs`. -/
theorem advance_along_succs (env : Env) (cfg : Config) (s t : SfnState)
    (hs : cfg.mode = .run s) (ht : (advance env cfg).mode = .run t) :
    t ∈ succs s := by
  simp only [advance, hs] at ht
  unfold succs
  rcases hg : graph s with ⟨k, next⟩ | cd | _ <;> simp only [hg] at ht ⊢
  · injection ht with h
    subst h
    simp
  · rcases hc : choiceTarget cd cfg.ctx with _ | u
    · simp only [hc] at ht
      simp at ht
    · simp only [hc] at ht
      injection ht with h
      subst h
      unfold choiceTarget at hc
      rcases hf : firstMatch cfg.ctx cd.inputPath cd.rules with _ | v <;>
        simp only [hf] at hc
      · exact List.mem_append_right _ (by simp [hc])
      · injection hc with h2
        subst h2
        exact List.mem_append_left _ (firstMatch_mem _ _ _ _ hf)
  · simp at ht

/-! ## Step lemmas: one source state at a time -/

theorem resolve_semantic (ctx : Context) :
    resolve ctx (some "$.queryConfig.Payload") "$.semantic_layer_strategy" =
      (ctx.queryConfig.bind QueryConfigPayload.semantic_layer_strategy).map JsonLit.str := rfl

theorem resolve_validation (ctx : Context) :
    resolve ctx none "$.queryConfig.Payload.sql_validation_strategy" =
      (ctx.queryConfig.bind QueryConfigPayload.sql_validation_strategy).map JsonLit.str := rfl

theorem resolve_execute (ctx : Context) :
    resolve ctx none "$.queryConfig.Payload.execute_sql_strategy" =
      (ctx.queryConfig.bind QueryConfigPayload.execute_sql_strategy).map JsonLit.str := rfl

theorem resolve_status (ctx : Context) :
    resolve ctx none "$.queryStatus.Payload.status" =
      (ctx.queryStatus.bind QueryStatusPayload.status).map JsonLit.str := rfl

theorem map_str_inj (o : Option String) (s : String) :
    o.map JsonLit.str = some (JsonLit.str s) ↔ o = some s := by
  cases o <;> simp

theorem bind_map_str {α : Type} (o : Option α) (f : α → Option String) (s : String) :
    (o.bind fun a => (f a).map JsonLit.str) = some (JsonLit.str s) ↔ o.bind f = some s := by
  cases o with
  | none => simp
  | some a => simp [map_str_inj]

theorem stepReformulate (env : Env) (st : Stats) (ctx : Context) :
    advance env ⟨st, ctx, .run .reformulateQuestion⟩ =
      ⟨{ st with reformulateCalls := st.reformulateCalls + 1 },
       { ctx with queryConfig := some env.reformulateOut },
       .run .feedbackChoiceOne⟩ := rfl

theorem stepChoiceOne (env : Env) (st : Stats) (ctx : Context) :
    advance env ⟨st, ctx, .run .feedbackChoiceOne⟩ =
      ⟨st, applyInputPath ctx (some "$.queryConfig.Payload"),
       .run (if ctx.queryConfig.bind QueryConfigPayload.semantic_layer_strategy = some "human"
             then .reformulatedQuestionFeedback else .queryGeneratorTwo)⟩ := by
  by_cases h : ctx.queryConfig.bind QueryConfigPayload.semantic_layer_strategy = some "human" <;>
    simp [advance, graph, choiceTarget, firstMatch, condEval, resolve_semantic, map_str_inj, bind_map_str, h]

theorem stepGateReformulated (env : Env) (st : Stats) (ctx : Context) :
    advance env ⟨st, ctx, .run .reformulatedQuestionFeedback⟩ =
      ⟨{ st with gateCalls := st.gateCalls + 1, gate1Msgs := st.gate1Msgs + 1 },
       env.gateResume st.gateCalls, .run .queryGeneratorOne⟩ := rfl

theorem stepGenOne (env : Env) (st : Stats) (ctx : Context) :
    advance env ⟨st, ctx, .run .queryGeneratorOne⟩ =
      ⟨{ st with generatorCalls := st.generatorCalls + 1 },
       { ctx with queryConfig := some (env.generatorOut st.generatorCalls) },
       .run .feedbackChoiceThree⟩ := rfl

theorem stepChoiceThree (env : Env) (st : Stats) (ctx : Context) :
    advance env ⟨st, ctx, .run .feedbackChoiceThree⟩ =
      ⟨st, ctx,
       .run (if ctx.queryConfig.bind QueryConfigPayload.sql_validation_strategy = some "human"
             then .generatedQueryFeedbackOne else .executeQueryChoice)⟩ := by
  by_cases h : ctx.queryConfig.bind QueryConfigPayload.sql_validation_strategy = some "human" <;>
    simp [advance, graph, choiceTarget, firstMatch, condEval, resolve_validation, map_str_inj, bind_map_str, h,
      applyInputPath]

theorem stepGateQueryPathOne (env : Env) (st : Stats) (ctx : Context) :
    advance env ⟨st, ctx, .run .generatedQueryFeedbackOne⟩ =
      ⟨{ st with gateCalls := st.gateCalls + 1, gate2aMsgs := st.gate2aMsgs + 1 },
       env.gateResume st.gateCalls, .run .executeQueryChoice⟩ := rfl

theorem stepGenTwo (env : Env) (st : Stats) (ctx : Context) :
    advance env ⟨st, ctx, .run .queryGeneratorTwo⟩ =
      ⟨{ st with generatorCalls := st.generatorCalls + 1 },
       { ctx with queryConfig := some (env.generatorOut st.generatorCalls) },
       .run .feedbackChoiceTwo⟩ := rfl

theorem stepChoiceTwo (env : Env) (st : Stats) (ctx : Context) :
    advance env ⟨st, ctx, .run .feedbackChoiceTwo⟩ =
      ⟨st, ctx,
       .run (if ctx.queryConfig.bind QueryConfigPayload.sql_validation_strategy = some "human"
             then .generatedQueryFeedbackTwo else .executeQueryChoice)⟩ := by
  by_cases h : ctx.queryConfig.bind QueryConfigPayload.sql_validation_strategy = some "human" <;>
    simp [advance, graph, choiceTarget, firstMatch, condEval, resolve_validation, map_str_inj, bind_map_str, h,
      applyInputPath]

theorem stepGateQueryPathTwo (env : Env) (st : Stats) (ctx : Context) :
    advance env ⟨st, ctx, .run .generatedQueryFeedbackTwo⟩ =
      ⟨{ st with gateCalls := st.gateCalls + 1, gate2bMsgs := st.gate2bMsgs + 1 },
       env.gateResume st.gateCalls, .run .executeQueryChoice⟩ := rfl

theorem stepExecGate (env : Env) (st : Stats) (ctx : Context) :
    advance env ⟨st, ctx, .run .executeQueryChoice⟩ =
      ⟨st, ctx,
       .run (if ctx.queryConfig.bind QueryConfigPayload.execute_sql_strategy = some "disabled"
             then .publishQueryResult else .queryExecutor)⟩ := by
  by_cases h : ctx.queryConfig.bind QueryConfigPayload.execute_sql_strategy = some "disabled" <;>
    simp [advance, graph, choiceTarget, firstMatch, condEval, resolve_execute, map_str_inj, bind_map_str, h,
      applyInputPath]

theorem stepExecutor (env : Env) (st : Stats) (ctx : Context) :
    advance env ⟨st, ctx, .run .queryExecutor⟩ =
      ⟨{ st with executorCalls := st.executorCalls + 1 },
       { ctx with queryStatus := some (env.executorOut st.executorCalls) },
       .run .autocorrectChoice⟩ := rfl

theorem stepAutocorrect (env : Env) (st : Stats) (ctx : Context) :
    advance env ⟨st, ctx, .run .autocorrectChoice⟩ =
      ⟨st, ctx,
       .run (if ctx.queryStatus.bind QueryStatusPayload.status = some "QUERY_ERROR"
             then .configureCount else .publishQueryResult)⟩ := by
  by_cases h : ctx.queryStatus.bind QueryStatusPayload.status = some "QUERY_ERROR" <;>
    simp [advance, graph, choiceTarget, firstMatch, condEval, resolve_status, map_str_inj, bind_map_str, h,
      applyInputPath]

theorem stepConfigure (env : Env) (st : Stats) (ctx : Context) :
    advance env ⟨st, ctx, .run .configureCount⟩ =
      ⟨st, { ctx with iterator := some (.raw ⟨3, 0, 1⟩) }, .run .iterator⟩ := rfl

theorem stepIterator (env : Env) (st : Stats) (ctx : Context) :
    advance env ⟨st, ctx, .run .iterator⟩ =
      ⟨{ st with iterateCalls := st.iterateCalls + 1
                 iterOutputs := st.iterOutputs ++ [env.iterateOut st.iterateCalls (counterOf ctx.iterator)] },
       { ctx with iterator := some (.payload
           (env.iterateOut st.iterateCalls (counterOf ctx.iterator)).1
           (env.iterateOut st.iterateCalls (counterOf ctx.iterator)).2) },
       .run .isCountReached⟩ := rfl

theorem stepIsCount (env : Env) (st : Stats) (ctx : Context) (c : IterCounter) (b : Bool)
    (h : ctx.iterator = some (.payload c b)) :
    advance env ⟨st, ctx, .run .isCountReached⟩ =
      ⟨st, ctx, .run (if b then .alternateQueryGenerator else .publishQueryResult)⟩ := by
  cases b <;>
    simp [advance, graph, choiceTarget, firstMatch, condEval, resolve, h, applyInputPath]

theorem stepIsCountGeneric (env : Env) (st : Stats) (ctx : Context) :
    advance env ⟨st, ctx, .run .isCountReached⟩ =
      ⟨st, ctx,
       .run (match ctx.iterator with
             | some (.payload _ true) => .alternateQueryGenerator
             | _ => .publishQueryResult)⟩ := by
  rcases h : ctx.iterator with _ | (⟨c⟩ | ⟨c, b⟩)
  · simp [advance, graph, choiceTarget, firstMatch, condEval, resolve, h, applyInputPath]
  · simp [advance, graph, choiceTarget, firstMatch, condEval, resolve, h, applyInputPath]
  · cases b <;>
      simp [advance, graph, choiceTarget, firstMatch, condEval, resolve, h, applyInputPath]

theorem stepAltGen (env : Env) (st : Stats) (ctx : Context) :
    advance env ⟨st, ctx, .run .alternateQueryGenerator⟩ =
      ⟨{ st with generatorCalls := st.generatorCalls + 1 },
       { ctx with queryConfig := some (env.generatorOut st.generatorCalls) },
       .run .iterator⟩ := rfl

theorem stepPublish (env : Env) (st : Stats) (ctx : Context) :
    advance env ⟨st, ctx, .run .publishQueryResult⟩ =
      ⟨{ st with publishMsgs := st.publishMsgs ++ [mkPublishMsg ctx] }, ctx, .done⟩ := rfl

/-! ## Generic advance facts -/

theorem advance_failed (env : Env) (cfg : Config) (h : cfg.mode = .failed) :
    advance env cfg = cfg := by
  unfold advance
  rw [h]

theorem advance_choice_st (env : Env) (st : Stats) (ctx : Context) (s : SfnState)
    (cd : ChoiceDef) (hg : graph s = .choice cd) :
    (advance env ⟨st, ctx, .run s⟩).st = st := by
  cases hc : choiceTarget cd ctx <;> simp [advance, hg, hc]

theorem advance_run_source (env : Env) (cfg : Config) (t : SfnState)
    (h : (advance env cfg).mode = .run t) :
    ∃ s, cfg.mode = .run s ∧ t ∈ succs s := by
  rcases hm : cfg.mode with s | _ | _
  · exact ⟨s, rfl, advance_along_succs env cfg s t hm h⟩
  · rw [advance_done env cfg hm, hm] at h
    cases h
  · rw [advance_failed env cfg hm, hm] at h
    cases h

theorem gate1Msgs_advance (env : Env) (cfg : Config)
    (h : cfg.mode ≠ .run .reformulatedQuestionFeedback) :
    (advance env cfg).st.gate1Msgs = cfg.st.gate1Msgs := by
  rcases cfg with ⟨st, ctx, mode⟩
  rcases mode with s | _ | _
  · cases s
    case reformulateQuestion => simp [stepReformulate]
    case feedbackChoiceOne => rw [advance_choice_st env st ctx .feedbackChoiceOne _ rfl]
    case reformulatedQuestionFeedback => exact absurd rfl h
    case queryGeneratorOne => simp [stepGenOne]
    case feedbackChoiceThree => rw [advance_choice_st env st ctx .feedbackChoiceThree _ rfl]
    case generatedQueryFeedbackOne => simp [stepGateQueryPathOne]
    case queryGeneratorTwo => simp [stepGenTwo]
    case feedbackChoiceTwo => rw [advance_choice_st env st ctx .feedbackChoiceTwo _ rfl]
    case generatedQueryFeedbackTwo => simp [stepGateQueryPathTwo]
    case executeQueryChoice => rw [advance_choice_st env st ctx .executeQueryChoice _ rfl]
    case queryExecutor => simp [stepExecutor]
    case autocorrectChoice => rw [advance_choice_st env st ctx .autocorrectChoice _ rfl]
    case configureCount => simp [stepConfigure]
    case iterator => simp [stepIterator]
    case isCountReached => rw [advance_choice_st env st ctx .isCountReached _ rfl]
    case alternateQueryGenerator => simp [stepAltGen]
    case publishQueryResult => simp [stepPublish]
  · rfl
  · rfl

theorem executorCalls_advance (env : Env) (cfg : Config)
    (h : cfg.mode ≠ .run .queryExecutor) :
    (advance env cfg).st.executorCalls = cfg.st.executorCalls := by
  rcases cfg with ⟨st, ctx, mode⟩
  rcases mode with s | _ | _
  · cases s
    case reformulateQuestion => simp [stepReformulate]
    case feedbackChoiceOne => rw [advance_choice_st env st ctx .feedbackChoiceOne _ rfl]
    case reformulatedQuestionFeedback => simp [stepGateReformulated]
    case queryGeneratorOne => simp [stepGenOne]
    case feedbackChoiceThree => rw [advance_choice_st env st ctx .feedbackChoiceThree _ rfl]
    case generatedQueryFeedbackOne => simp [stepGateQueryPathOne]
    case queryGeneratorTwo => simp [stepGenTwo]
    case feedbackChoiceTwo => rw [advance_choice_st env st ctx .feedbackChoiceTwo _ rfl]
    case generatedQueryFeedbackTwo => simp [stepGateQueryPathTwo]
    case executeQueryChoice => rw [advance_choice_st env st ctx .executeQueryChoice _ rfl]
    case queryExecutor => exact absurd rfl h
    case autocorrectChoice => rw [advance_choice_st env st ctx .autocorrectChoice _ rfl]
    case configureCount => simp [stepConfigure]
    case iterator => simp [stepIterator]
    case isCountReached => rw [advance_choice_st env st ctx .isCountReached _ rfl]
    case alternateQueryGenerator => simp [stepAltGen]
    case publishQueryResult => simp [stepPublish]
  · rfl
  · rfl

/-! ## Fixtures used by witnesses -/

/-- A bland environment: empty payloads everywhere. -/
def env0 : Env :=
  { reformulateOut := ⟨none, none, none, none⟩
    generatorOut := fun _ => ⟨none, none, none, none⟩
    executorOut := fun _ => ⟨none, none⟩
    iterateOut := fun _ c => (c, false)
    gateResume := fun _ => Context.empty }

/-! ## Claim C3: the reformulation feedback gate -/

theorem succs_into_choiceOne :
    ∀ s : SfnState, .feedbackChoiceOne ∈ succs s → s = .reformulateQuestion := by
  decide

theorem succs_into_gateOne :
    ∀ s : SfnState, .reformulatedQuestionFeedback ∈ succs s → s = .feedbackChoiceOne := by
  decide

/-- The inductive invariant behind C3: no reformulation-feedback
message has been sent, the only way into `feedbackChoiceOne` is from
`reformulate_question` which has just written its output payload, and
control never sits at the reformulation gate. -/
def GateOneInv (env : Env) (cfg : Config) : Prop :=
  cfg.st.gate1Msgs = 0
  ∧ (cfg.mode = .run .feedbackChoiceOne → cfg.ctx.queryConfig = some env.reformulateOut)
  ∧ cfg.mode ≠ .run .reformulatedQuestionFeedback

theorem gateOneInv_step (env : Env)
    (hyp : env.reformulateOut.semantic_layer_strategy ≠ some "human")
    (cfg : Config) (h : GateOneInv env cfg) : GateOneInv env (advance env cfg) := by
  obtain ⟨h1, h2, h3⟩ := h
  refine ⟨?_, ?_, ?_⟩
  · rw [gate1Msgs_advance env cfg h3]
    exact h1
  · intro hmode
    obtain ⟨s, hs, hmem⟩ := advance_run_source env cfg _ hmode
    have hsrc := succs_into_choiceOne s hmem
    subst hsrc
    rcases cfg with ⟨st, ctx, mode⟩
    cases hs
    rw [stepReformulate]
  · intro hmode
    obtain ⟨s, hs, hmem⟩ := advance_run_source env cfg _ hmode
    have hsrc := succs_into_gateOne s hmem
    subst hsrc
    rcases cfg with ⟨st, ctx, mode⟩
    cases hs
    have hq : ctx.queryConfig = some env.reformulateOut := h2 rfl
    rw [stepChoiceOne] at hmode
    simp only [Mode.run.injEq] at hmode
    rw [hq] at hmode
    simp only [Option.some_bind] at hmode
    rw [if_neg hyp] at hmode
    cases hmode

theorem gateOneInv_runN (env : Env)
    (hyp : env.reformulateOut.semantic_layer_strategy ≠ some "human")
    (n : Nat) (cfg : Config) (h : GateOneInv env cfg) :
    GateOneInv env (runN env n cfg) := by
  induction n generalizing cfg with
  | zero => exact h
  | succ n ih => exact ih (advance env cfg) (gateOneInv_step env hyp cfg h)

/-- C3: in every run whose reformulated execution context carries a
`semantic_layer_strategy` different from `"human"` (the field is the
Reformulate output, written to `$.queryConfig.Payload` and read there
by `is_feedback_req_on_reformualted_question?` through its
`inputPath`), the reformulation feedback gate never executes: no
message is ever sent to the reviewer queue for reformulation, at any
point of the run. -/
theorem gateOne_never_when_not_human (env : Env) (ctx0 : Context) (n : Nat)
    (hyp : env.reformulateOut.semantic_layer_strategy ≠ some "human") :
    (runN env n (initConfig ctx0)).st.gate1Msgs = 0 := by
  have hinv : GateOneInv env (initConfig ctx0) := by
    refine ⟨rfl, ?_, ?_⟩
    · intro hmode
      simp [initConfig] at hmode
    · intro hmode
      simp [initConfig] at hmode
  exact (gateOneInv_runN env hyp n (initConfig ctx0) hinv).1

theorem gateOne_never_when_not_human_witness :
    (env0.reformulateOut.semantic_layer_strategy ≠ some "human")
    ∧ (runN env0 6 (initConfig Context.empty)).st.gate1Msgs = 0 :=
  ⟨by decide, gateOne_never_when_not_human env0 Context.empty 6 (by decide)⟩

/-- An environment with automatic strategies whose generated query
config disables execution. -/
def envDisabled : Env :=
  { reformulateOut := ⟨none, none, none, some "automatic"⟩
    generatorOut := fun _ => ⟨some "SELECT 1", some "automatic", some "disabled", none⟩
    executorOut := fun _ => ⟨none, none⟩
    iterateOut := fun _ c => (c, false)
    gateResume := fun _ => Context.empty }

/-! ## Claim C4: disabled execution -/

/-- The states that can run before the execute-gate has been passed:
`execute_query` and everything after it are reachable only through the
`otherwise` branch of `is_query_execution_req?`. -/
def preExec : SfnState → Bool
  | .reformulateQuestion => true
  | .feedbackChoiceOne => true
  | .reformulatedQuestionFeedback => true
  | .queryGeneratorOne => true
  | .feedbackChoiceThree => true
  | .generatedQueryFeedbackOne => true
  | .queryGeneratorTwo => true
  | .feedbackChoiceTwo => true
  | .generatedQueryFeedbackTwo => true
  | .executeQueryChoice => true
  | _ => false

theorem preExec_closed :
    ∀ s t : SfnState, t ∈ succs s → preExec t = true → preExec s = true := by
  decide

theorem preExec_not_executor :
    ∀ s : SfnState, preExec s = true → s ≠ .queryExecutor := by
  decide

/-- While control is in the pre-execute region, `execute_query` has not
run yet. -/
def PreExecInv (cfg : Config) : Prop :=
  ∀ s, cfg.mode = .run s → preExec s = true → cfg.st.executorCalls = 0

theorem preExecInv_step (env : Env) (cfg : Config) (h : PreExecInv cfg) :
    PreExecInv (advance env cfg) := by
  intro t hmode hpre
  obtain ⟨s, hs, hmem⟩ := advance_run_source env cfg t hmode
  have hpres := preExec_closed s t hmem hpre
  have hne : cfg.mode ≠ .run .queryExecutor := by
    rw [hs]
    intro heq
    injection heq with h2
    exact preExec_not_executor s hpres h2
  rw [executorCalls_advance env cfg hne]
  exact h s hs hpres

theorem preExecInv_runN (env : Env) (n : Nat) (cfg : Config) (h : PreExecInv cfg) :
    PreExecInv (runN env n cfg) := by
  induction n generalizing cfg with
  | zero => exact h
  | succ n ih => exact ih (advance env cfg) (preExecInv_step env cfg h)

/-- While control is in the pre-execute region, no `queryStatus`
payload exists, provided the run started without one and external
reviewers resume the gates without one. -/
def NoStatusInv (cfg : Config) : Prop :=
  ∀ s, cfg.mode = .run s → preExec s = true → cfg.ctx.queryStatus = none

theorem noStatusInv_step (env : Env)
    (hres : ∀ k, (env.gateResume k).queryStatus = none)
    (cfg : Config) (h : NoStatusInv cfg) : NoStatusInv (advance env cfg) := by
  intro t hmode hpre
  obtain ⟨s, hs, hmem⟩ := advance_run_source env cfg t hmode
  have hpres := preExec_closed s t hmem hpre
  rcases cfg with ⟨st, ctx, mode⟩
  cases hs
  have h0 : ctx.queryStatus = none := h s rfl hpres
  cases s
  case reformulateQuestion => rw [stepReformulate] at hmode ⊢; exact h0
  case feedbackChoiceOne =>
      rw [stepChoiceOne] at hmode ⊢
      simp [applyInputPath, Context.empty]
  case reformulatedQuestionFeedback =>
      rw [stepGateReformulated] at hmode ⊢
      exact hres st.gateCalls
  case queryGeneratorOne => rw [stepGenOne] at hmode ⊢; exact h0
  case feedbackChoiceThree => rw [stepChoiceThree] at hmode ⊢; exact h0
  case generatedQueryFeedbackOne =>
      rw [stepGateQueryPathOne] at hmode ⊢
      exact hres st.gateCalls
  case queryGeneratorTwo => rw [stepGenTwo] at hmode ⊢; exact h0
  case feedbackChoiceTwo => rw [stepChoiceTwo] at hmode ⊢; exact h0
  case generatedQueryFeedbackTwo =>
      rw [stepGateQueryPathTwo] at hmode ⊢
      exact hres st.gateCalls
  case executeQueryChoice => rw [stepExecGate] at hmode ⊢; exact h0
  all_goals simp [preExec] at hpres

theorem noStatusInv_runN (env : Env)
    (hres : ∀ k, (env.gateResume k).queryStatus = none)
    (n : Nat) (cfg : Config) (h : NoStatusInv cfg) :
    NoStatusInv (runN env n cfg) := by
  induction n generalizing cfg with
  | zero => exact h
  | succ n ih => exact ih (advance env cfg) (noStatusInv_step env hres cfg h)

/-- C4: whenever a run reaches the execute-gate
(`is_query_execution_req?`) with
`queryConfig.Payload.execute_sql_strategy = "disabled"`, no
`execute_query` invocation has happened, the matching branch goes
directly to `publish_query_result`, the run finishes one step later
with still zero `execute_query` invocations, and the single published
message carries no `result` produced by `execute_query`: its `result`
field is absent whenever the run began without a `queryStatus` payload
and gate reviewers resume without one. -/
theorem disabledExecution_publishes_directly (env : Env) (ctx0 : Context) (n : Nat)
    (hmode : (runN env n (initConfig ctx0)).mode = .run .executeQueryChoice)
    (hdis : (runN env n (initConfig ctx0)).ctx.queryConfig.bind
        QueryConfigPayload.execute_sql_strategy = some "disabled") :
    (runN env n (initConfig ctx0)).st.executorCalls = 0
    ∧ (runN env (n + 1) (initConfig ctx0)).mode = .run .publishQueryResult
    ∧ (runN env (n + 2) (initConfig ctx0)).mode = .done
    ∧ (runN env (n + 2) (initConfig ctx0)).st.executorCalls = 0
    ∧ (runN env (n + 2) (initConfig ctx0)).st.publishMsgs =
        (runN env n (initConfig ctx0)).st.publishMsgs
          ++ [mkPublishMsg (runN env n (initConfig ctx0)).ctx]
    ∧ (ctx0.queryStatus = none → (∀ k, (env.gateResume k).queryStatus = none) →
        (mkPublishMsg (runN env n (initConfig ctx0)).ctx).result = none) := by
  have hinit : PreExecInv (initConfig ctx0) := by
    intro s hs _
    rfl
  have hexec0 := preExecInv_runN env n (initConfig ctx0) hinit _ hmode rfl
  have hstat0 : ctx0.queryStatus = none →
      (∀ k, (env.gateResume k).queryStatus = none) →
      (runN env n (initConfig ctx0)).ctx.queryStatus = none := by
    intro h0 hres
    have hinitS : NoStatusInv (initConfig ctx0) := by
      intro s hs _
      exact h0
    exact noStatusInv_runN env hres n (initConfig ctx0) hinitS _ hmode rfl
  have e1 : runN env (n + 1) (initConfig ctx0) = advance env (runN env n (initConfig ctx0)) := by
    rw [runN_add]
    rfl
  have e2 : runN env (n + 2) (initConfig ctx0) =
      advance env (advance env (runN env n (initConfig ctx0))) := by
    rw [runN_add]
    rfl
  rcases hcfg : runN env n (initConfig ctx0) with ⟨st, ctx, mode⟩
  rw [hcfg] at hmode hdis hexec0 hstat0 e1 e2
  simp only at hmode hdis hexec0 hstat0
  subst hmode
  rw [stepExecGate, if_pos hdis] at e1 e2
  rw [stepPublish] at e2
  refine ⟨hexec0, ?_, ?_, ?_, ?_, ?_⟩
  · rw [e1]
  · rw [e2]
  · rw [e2]
    exact hexec0
  · rw [e2]
  · intro h0 hres
    simp [mkPublishMsg, hstat0 h0 hres]

theorem disabledExecution_publishes_directly_witness :
    ((runN envDisabled 4 (initConfig Context.empty)).mode = .run .executeQueryChoice)
    ∧ (runN envDisabled 4 (initConfig Context.empty)).st.executorCalls = 0
    ∧ (runN envDisabled 6 (initConfig Context.empty)).mode = .done
    ∧ (runN envDisabled 6 (initConfig Context.empty)).st.executorCalls = 0
    ∧ (mkPublishMsg (runN envDisabled 4 (initConfig Context.empty)).ctx).result = none := by
  have h := disabledExecution_publishes_directly envDisabled Context.empty 4
    (by decide) (by decide)
  exact ⟨by decide, h.1, h.2.2.1, h.2.2.2.1, h.2.2.2.2.2 rfl (fun _ => rfl)⟩

/-! ## Claim C2: the autocorrect loop is bounded -/

/-- Modelled from the spec: the Iterate unit (the
`lambda/aws-text-to-sql/query_autocorrect` Lambda) is not under `src`,
only its wiring is; spec section 4.4 states that Iterate must
increment `index` by `step` and set `continue = (index < count)`. -/
def specIterate (c : IterCounter) : IterCounter × Bool :=
  (⟨c.count, c.index + c.step, c.step⟩, decide (c.index + c.step < c.count))

theorem runN_succ (env : Env) (n : Nat) (cfg : Config) :
    runN env (n + 1) cfg = runN env n (advance env cfg) := rfl

/-- C2: whenever a run enters the autocorrect branch
(`is_autocorrect_required?` sees `status = "QUERY_ERROR"`), with the
Iterate unit behaving as specified, the counter is initialized to
`count = 3, index = 0, step = 1`; the loop performs exactly 2 more
GenerateQuery invocations (in particular at most 3); every counter
payload Iterate ever writes has `index ≤ count = 3`, so `index` never
exceeds `count`; and after 11 steps the run has fallen through to
`publish_query_result` and finished, publishing exactly one more
message. -/
theorem autocorrectLoop_bounded (env : Env) (st : Stats) (ctx : Context)
    (hiter : env.iterateOut = fun _ => specIterate)
    (hstat : ctx.queryStatus.bind QueryStatusPayload.status = some "QUERY_ERROR") :
    (runN env 2 ⟨st, ctx, .run .autocorrectChoice⟩).ctx.iterator = some (.raw ⟨3, 0, 1⟩)
    ∧ (runN env 11 ⟨st, ctx, .run .autocorrectChoice⟩).mode = .done
    ∧ (runN env 11 ⟨st, ctx, .run .autocorrectChoice⟩).st.generatorCalls =
        st.generatorCalls + 2
    ∧ (runN env 11 ⟨st, ctx, .run .autocorrectChoice⟩).st.generatorCalls ≤
        st.generatorCalls + 3
    ∧ (runN env 11 ⟨st, ctx, .run .autocorrectChoice⟩).st.iterateCalls =
        st.iterateCalls + 3
    ∧ (runN env 11 ⟨st, ctx, .run .autocorrectChoice⟩).st.iterOutputs =
        st.iterOutputs ++ [(⟨3, 1, 1⟩, true), (⟨3, 2, 1⟩, true), (⟨3, 3, 1⟩, false)]
    ∧ (∀ o ∈ (runN env 11 ⟨st, ctx, .run .autocorrectChoice⟩).st.iterOutputs,
        o ∈ st.iterOutputs ∨ (o.1.index ≤ o.1.count ∧ o.1.count = 3))
    ∧ (runN env 11 ⟨st, ctx, .run .autocorrectChoice⟩).st.publishMsgs.length =
        st.publishMsgs.length + 1 := by
  have e2 : runN env 2 ⟨st, ctx, .run .autocorrectChoice⟩ =
      ⟨st, { ctx with iterator := some (.raw ⟨3, 0, 1⟩) }, .run .iterator⟩ := by
    rw [show (2 : Nat) = 0 + 1 + 1 from rfl, runN_succ, runN_succ]
    rw [stepAutocorrect, if_pos hstat, stepConfigure]
    rfl
  have e11 : runN env 11 ⟨st, ctx, .run .autocorrectChoice⟩ =
      runN env 9 ⟨st, { ctx with iterator := some (.raw ⟨3, 0, 1⟩) }, .run .iterator⟩ := by
    rw [show (11 : Nat) = 2 + 9 from rfl, runN_add, e2]
  have hout : (runN env 11 ⟨st, ctx, .run .autocorrectChoice⟩).st.iterOutputs =
      st.iterOutputs ++ [(⟨3, 1, 1⟩, true), (⟨3, 2, 1⟩, true), (⟨3, 3, 1⟩, false)] := by
    rw [e11, show (9 : Nat) = 0 + 1 + 1 + 1 + 1 + 1 + 1 + 1 + 1 + 1 from rfl]
    simp only [runN_succ, runN]
    simp [stepIterator, hiter, counterOf, specIterate, stepIsCountGeneric, stepAltGen,
      stepPublish]
  have hbound : ∀ o ∈ (runN env 11 ⟨st, ctx, .run .autocorrectChoice⟩).st.iterOutputs,
      o ∈ st.iterOutputs ∨ (o.1.index ≤ o.1.count ∧ o.1.count = 3) := by
    intro o ho
    rw [hout] at ho
    rcases List.mem_append.mp ho with ho | ho
    · exact Or.inl ho
    · right
      simp only [List.mem_cons, List.not_mem_nil, or_false] at ho
      rcases ho with ho | ho | ho <;> subst ho <;> exact ⟨by decide, rfl⟩
  refine ⟨by rw [e2], ?_, ?_, ?_, ?_, hout, hbound, ?_⟩ <;>
    (rw [e11, show (9 : Nat) = 0 + 1 + 1 + 1 + 1 + 1 + 1 + 1 + 1 + 1 from rfl]
     simp only [runN_succ, runN]
     simp [stepIterator, hiter, counterOf, specIterate, stepIsCountGeneric, stepAltGen,
       stepPublish])

/-- An environment with automatic strategies, a failing executor and
the spec-modelled Iterate unit. -/
def envAutoError : Env :=
  { reformulateOut := ⟨none, none, none, some "automatic"⟩
    generatorOut := fun _ => ⟨some "SELECT 1", some "automatic", some "enabled", none⟩
    executorOut := fun _ => ⟨some "QUERY_ERROR", some "boom"⟩
    iterateOut := fun _ => specIterate
    gateResume := fun _ => Context.empty }

/-- A context as it stands when the autocorrect branch is entered. -/
def ctxAtError : Context :=
  { Context.empty with
      queryConfig := some ⟨some "SELECT 1", some "automatic", some "enabled", none⟩
      queryStatus := some ⟨some "QUERY_ERROR", some "boom"⟩ }

theorem autocorrectLoop_bounded_witness :
    (runN envAutoError 2 ⟨Stats.zero, ctxAtError, .run .autocorrectChoice⟩).ctx.iterator =
      some (.raw ⟨3, 0, 1⟩)
    ∧ (runN envAutoError 11 ⟨Stats.zero, ctxAtError, .run .autocorrectChoice⟩).mode = .done
    ∧ (runN envAutoError 11 ⟨Stats.zero, ctxAtError, .run .autocorrectChoice⟩).st.generatorCalls = 2
    ∧ (runN envAutoError 11 ⟨Stats.zero, ctxAtError, .run .autocorrectChoice⟩).st.iterateCalls = 3 := by
  have h := autocorrectLoop_bounded envAutoError Stats.zero ctxAtError rfl (by decide)
  exact ⟨h.1, h.2.1, h.2.2.1, h.2.2.2.2.1⟩

/-! ## Claim C1: end-to-end scenario C -/

/-- From `execute_query`, when the first executor invocation reports
`QUERY_ERROR` and the Iterate unit reports `continue = true` on its
first invocation and `false` on its second, the run finishes in 9
steps: the alternate query is generated once, the query is never
re-executed, and one message is published. -/
theorem execSegment (env : Env) (st : Stats) (ctx : Context)
    (h1 : st.executorCalls = 0) (h2 : st.iterateCalls = 0)
    (h3 : st.publishMsgs = []) (h4 : st.generatorCalls = 1)
    (hE : (env.executorOut 0).status = some "QUERY_ERROR")
    (hI0 : ∀ c, (env.iterateOut 0 c).2 = true)
    (hI1 : ∀ c, (env.iterateOut 1 c).2 = false) :
    (runN env 9 ⟨st, ctx, .run .queryExecutor⟩).mode = .done
    ∧ (runN env 9 ⟨st, ctx, .run .queryExecutor⟩).st.generatorCalls = 2
    ∧ (runN env 9 ⟨st, ctx, .run .queryExecutor⟩).st.executorCalls = 1
    ∧ (runN env 9 ⟨st, ctx, .run .queryExecutor⟩).st.iterateCalls = 2
    ∧ (runN env 9 ⟨st, ctx, .run .queryExecutor⟩).st.publishMsgs.length = 1 := by
  rw [show (9 : Nat) = 0 + 1 + 1 + 1 + 1 + 1 + 1 + 1 + 1 + 1 from rfl]
  simp only [runN_succ, runN]
  simp [stepExecutor, h1, h2, h3, h4, hE, hI0, hI1, stepAutocorrect, stepConfigure,
    stepIterator, counterOf, stepIsCountGeneric, stepAltGen, stepPublish]

/-- From the execute-gate with the pre-gate statistics, the run either
publishes directly with zero executor invocations, or goes through
`execute_query` exactly once and ends with the scenario C statistics. -/
theorem gateSegment (env : Env) (st : Stats) (ctx : Context)
    (h1 : st.executorCalls = 0) (h2 : st.iterateCalls = 0)
    (h3 : st.publishMsgs = []) (h4 : st.generatorCalls = 1)
    (hE : (env.executorOut 0).status = some "QUERY_ERROR")
    (hI0 : ∀ c, (env.iterateOut 0 c).2 = true)
    (hI1 : ∀ c, (env.iterateOut 1 c).2 = false) :
    ∃ N, (runN env N ⟨st, ctx, .run .executeQueryChoice⟩).mode = .done
      ∧ ((runN env N ⟨st, ctx, .run .executeQueryChoice⟩).st.executorCalls = 0
        ∨ ((runN env N ⟨st, ctx, .run .executeQueryChoice⟩).st.generatorCalls = 2
            ∧ (runN env N ⟨st, ctx, .run .executeQueryChoice⟩).st.executorCalls = 1
            ∧ (runN env N ⟨st, ctx, .run .executeQueryChoice⟩).st.iterateCalls = 2
            ∧ (runN env N ⟨st, ctx, .run .executeQueryChoice⟩).st.publishMsgs.length = 1)) := by
  by_cases hd : ctx.queryConfig.bind QueryConfigPayload.execute_sql_strategy = some "disabled"
  · refine ⟨2, ?_, Or.inl ?_⟩ <;>
      (rw [show (2 : Nat) = 0 + 1 + 1 from rfl]
       simp only [runN_succ, runN]
       simp [stepExecGate, hd, stepPublish, h1])
  · have egate : advance env ⟨st, ctx, .run .executeQueryChoice⟩ =
        ⟨st, ctx, .run .queryExecutor⟩ := by
      rw [stepExecGate, if_neg hd]
    have h9 := execSegment env st ctx h1 h2 h3 h4 hE hI0 hI1
    refine ⟨10, ?_, Or.inr ⟨?_, ?_, ?_, ?_⟩⟩ <;>
      (rw [show (10 : Nat) = 9 + 1 from rfl]
       rw [show runN env (9 + 1) ⟨st, ctx, .run .executeQueryChoice⟩ =
            runN env 9 (advance env ⟨st, ctx, .run .executeQueryChoice⟩) from rfl, egate])
    · exact h9.1
    · exact h9.2.1
    · exact h9.2.2.1
    · exact h9.2.2.2.1
    · exact h9.2.2.2.2

/-- A run that has completed and has executed the query at least once,
having passed the execute-gate at step `m` with the pre-gate
statistics, has exactly the scenario C statistics. -/
theorem finishFromGate (env : Env) (ctx0 : Context) (n m : Nat) (SL : Stats)
    (hSL1 : SL.executorCalls = 0) (hSL2 : SL.iterateCalls = 0)
    (hSL3 : SL.publishMsgs = []) (hSL4 : SL.generatorCalls = 1)
    (hm : (runN env m (initConfig ctx0)).mode = .run .executeQueryChoice)
    (hms : (runN env m (initConfig ctx0)).st = SL)
    (hE : (env.executorOut 0).status = some "QUERY_ERROR")
    (hI0 : ∀ c, (env.iterateOut 0 c).2 = true)
    (hI1 : ∀ c, (env.iterateOut 1 c).2 = false)
    (hdone : (runN env n (initConfig ctx0)).mode = .done)
    (hexec : 1 ≤ (runN env n (initConfig ctx0)).st.executorCalls) :
    (runN env n (initConfig ctx0)).st.generatorCalls = 2
    ∧ (runN env n (initConfig ctx0)).st.executorCalls = 1
    ∧ (runN env n (initConfig ctx0)).st.iterateCalls = 2
    ∧ (runN env n (initConfig ctx0)).st.publishMsgs.length = 1 := by
  rcases hcm : runN env m (initConfig ctx0) with ⟨stm, ctxm, modem⟩
  rw [hcm] at hm hms
  simp only at hm hms
  subst hm
  subst hms
  obtain ⟨N, hNdone, hNstats⟩ :=
    gateSegment env stm ctxm hSL1 hSL2 hSL3 hSL4 hE hI0 hI1
  have hcomp : runN env (m + N) (initConfig ctx0) =
      runN env N ⟨stm, ctxm, .run .executeQueryChoice⟩ := by
    rw [runN_add, hcm]
  have huniq : runN env n (initConfig ctx0) = runN env (m + N) (initConfig ctx0) :=
    runN_done_eq env n (m + N) (initConfig ctx0) hdone (by rw [hcomp]; exact hNdone)
  rw [huniq, hcomp] at hexec ⊢
  rcases hNstats with h0 | hS
  · omega
  · exact hS

/-- C1 counterexample environment: `semantic_layer_strategy` and
`sql_validation_strategy` automatic, execution enabled, the executor
reporting `QUERY_ERROR`, the Iterate unit reporting `continue = true`
on its first invocation and `false` afterwards. -/
def envScenarioC : Env :=
  { reformulateOut := ⟨none, none, none, some "automatic"⟩
    generatorOut := fun _ => ⟨some "SELECT 1", some "automatic", some "enabled", none⟩
    executorOut := fun _ => ⟨some "QUERY_ERROR", some "err"⟩
    iterateOut := fun k c => (⟨c.count, c.index + c.step, c.step⟩, decide (k = 0))
    gateResume := fun _ => Context.empty }

/-- C1 counterexample: a concrete run in which the first ExecuteQuery
invocation returns `QUERY_ERROR` and Iterate reports `continue = true`
once and then `false` (as recorded in `iterOutputs`), yet the
completed run performs exactly 1 ExecuteQuery invocation, not 2: the
autocorrect loop chains `generate_alternate_query` back into
`iterator` (source line 828), never back into `execute_query`, so the
regenerated query is never re-executed. GenerateQuery, Iterate and
Publish match the claimed 2, 2 and 1. -/
theorem scenarioC_counterexample :
    (envScenarioC.executorOut 0).status = some "QUERY_ERROR"
    ∧ (runN envScenarioC 20 (initConfig Context.empty)).st.iterOutputs.map Prod.snd =
        [true, false]
    ∧ (runN envScenarioC 20 (initConfig Context.empty)).mode = .done
    ∧ (runN envScenarioC 20 (initConfig Context.empty)).st.generatorCalls = 2
    ∧ (runN envScenarioC 20 (initConfig Context.empty)).st.iterateCalls = 2
    ∧ (runN envScenarioC 20 (initConfig Context.empty)).st.publishMsgs.length = 1
    ∧ (runN envScenarioC 20 (initConfig Context.empty)).st.executorCalls = 1
    ∧ ¬ (runN envScenarioC 20 (initConfig Context.empty)).st.executorCalls = 2 := by
  refine ⟨rfl, rfl, rfl, rfl, rfl, rfl, rfl, ?_⟩
  decide

/-- C1 (amended): in every completed run in which the first
ExecuteQuery invocation returns `QUERY_ERROR`, the Iterate unit
reports `continue = true` on its first invocation and `false` on its
second, and ExecuteQuery runs at all, the workflow performs exactly 2
GenerateQuery invocations, exactly 1 ExecuteQuery invocation (the loop
regenerates the query but never re-executes it), exactly 2 Iterate
invocations, and sends exactly one Publish message. -/
theorem scenarioC_amended (env : Env) (ctx0 : Context) (n : Nat)
    (hE : (env.executorOut 0).status = some "QUERY_ERROR")
    (hI0 : ∀ c, (env.iterateOut 0 c).2 = true)
    (hI1 : ∀ c, (env.iterateOut 1 c).2 = false)
    (hdone : (runN env n (initConfig ctx0)).mode = .done)
    (hexec : 1 ≤ (runN env n (initConfig ctx0)).st.executorCalls) :
    (runN env n (initConfig ctx0)).st.generatorCalls = 2
    ∧ (runN env n (initConfig ctx0)).st.executorCalls = 1
    ∧ (runN env n (initConfig ctx0)).st.iterateCalls = 2
    ∧ (runN env n (initConfig ctx0)).st.publishMsgs.length = 1 := by
  by_cases b1 : env.reformulateOut.semantic_layer_strategy = some "human"
  · by_cases b2 : (env.generatorOut 0).sql_validation_strategy = some "human"
    · -- gate 1 and gate 2a both fire: execute-gate reached at step 6
      refine finishFromGate env ctx0 n 6
        ⟨1, 1, 0, 0, 2, 1, 1, 0, [], []⟩ rfl rfl rfl rfl ?_ ?_ hE hI0 hI1 hdone hexec <;>
        (rw [show (6 : Nat) = 0 + 1 + 1 + 1 + 1 + 1 + 1 from rfl]
         simp only [runN_succ, runN]
         simp [initConfig, Stats.zero, stepReformulate, stepChoiceOne, b1, applyInputPath,
           stepGateReformulated, stepGenOne, stepChoiceThree, b2, stepGateQueryPathOne])
    · -- gate 1 fires, gate 2a does not: execute-gate reached at step 5
      refine finishFromGate env ctx0 n 5
        ⟨1, 1, 0, 0, 1, 1, 0, 0, [], []⟩ rfl rfl rfl rfl ?_ ?_ hE hI0 hI1 hdone hexec <;>
        (rw [show (5 : Nat) = 0 + 1 + 1 + 1 + 1 + 1 from rfl]
         simp only [runN_succ, runN]
         simp [initConfig, Stats.zero, stepReformulate, stepChoiceOne, b1, applyInputPath,
           stepGateReformulated, stepGenOne, stepChoiceThree, b2])
  · by_cases b2 : (env.generatorOut 0).sql_validation_strategy = some "human"
    · -- gate 2b fires: execute-gate reached at step 5
      refine finishFromGate env ctx0 n 5
        ⟨1, 1, 0, 0, 1, 0, 0, 1, [], []⟩ rfl rfl rfl rfl ?_ ?_ hE hI0 hI1 hdone hexec <;>
        (rw [show (5 : Nat) = 0 + 1 + 1 + 1 + 1 + 1 from rfl]
         simp only [runN_succ, runN]
         simp [initConfig, Stats.zero, stepReformulate, stepChoiceOne, b1, applyInputPath,
           stepGenTwo, stepChoiceTwo, b2, stepGateQueryPathTwo])
    · -- no gate fires: execute-gate reached at step 4
      refine finishFromGate env ctx0 n 4
        ⟨1, 1, 0, 0, 0, 0, 0, 0, [], []⟩ rfl rfl rfl rfl ?_ ?_ hE hI0 hI1 hdone hexec <;>
        (rw [show (4 : Nat) = 0 + 1 + 1 + 1 + 1 from rfl]
         simp only [runN_succ, runN]
         simp [initConfig, Stats.zero, stepReformulate, stepChoiceOne, b1, applyInputPath,
           stepGenTwo, stepChoiceTwo, b2])

theorem scenarioC_amended_witness :
    (runN envScenarioC 20 (initConfig Context.empty)).st.generatorCalls = 2
    ∧ (runN envScenarioC 20 (initConfig Context.empty)).st.executorCalls = 1
    ∧ (runN envScenarioC 20 (initConfig Context.empty)).st.iterateCalls = 2
    ∧ (runN envScenarioC 20 (initConfig Context.empty)).st.publishMsgs.length = 1 :=
  scenarioC_amended envScenarioC Context.empty 20 rfl (fun _ => rfl)
    (fun _ => rfl) rfl (by decide)

/-! ## Fixtures for the provisioning claims -/

/-- Props supplying only a pre-existing Aurora cluster. -/
def propsExistingCluster : TextToSqlProps :=
  { existingAuroraDbCluster := true, databaseClusterProps := false
    existingRdsDbInstance := false, databaseInstanceProps := false
    dbName := .MYSQL, databaseType := none }

/-- Props supplying both a pre-existing Aurora cluster and
cluster-creation parameters. -/
def propsClusterClash : TextToSqlProps :=
  { existingAuroraDbCluster := true, databaseClusterProps := true
    existingRdsDbInstance := false, databaseInstanceProps := false
    dbName := .MYSQL, databaseType := none }

/-- Props selecting the default database path with
`DbName.POSTGRESQL`. -/
def propsDefaultPostgres : TextToSqlProps :=
  { existingAuroraDbCluster := false, databaseClusterProps := false
    existingRdsDbInstance := false, databaseInstanceProps := false
    dbName := .POSTGRESQL, databaseType := none }

deriving instance DecidableEq for Except

/-- The three mutual-exclusion pairings checked by `validateDbProps`. -/
def dbPairingViolated (p : TextToSqlProps) : Bool :=
  (p.existingAuroraDbCluster && p.databaseClusterProps)
    || (p.databaseInstanceProps && p.existingRdsDbInstance)
    || (p.existingAuroraDbCluster && p.existingRdsDbInstance)

/-- The error message of a failed computation, if any. -/
def errorOf {α : Type} : Except String α → Option String
  | .error e => some e
  | .ok _ => none

/-- Exactly one of the two database fields is populated on every
successful database selection. -/
def exactlyOneAssigned : Except String (DbAssignment × Bool) → Bool
  | .ok (a, _) => a.databaseCluster.isSome != a.dbInstance.isSome
  | .error _ => true

/-! ## Claim theorems: provisioning -/

/-- C5: the execute-gate (`is_query_execution_req?`) tests exactly the
field path `$.queryConfig.Payload.execute_sql_strategy`; on the literal
string match `"disabled"` the branch taken is `publish_query_result`,
and in every other case, including the field or the whole
`queryConfig` payload being absent, the branch taken is
`execute_query`. -/
theorem executeGate_condition :
    graph .executeQueryChoice =
      .choice
        { inputPath := none
          rules := [(.stringEquals "$.queryConfig.Payload.execute_sql_strategy" "disabled",
                     .publishQueryResult)]
          otherwise := some .queryExecutor }
    ∧ (∀ (env : Env) (st : Stats) (ctx : Context),
        advance env ⟨st, ctx, .run .executeQueryChoice⟩ =
          ⟨st, ctx,
           .run (if ctx.queryConfig.bind QueryConfigPayload.execute_sql_strategy = some "disabled"
                 then .publishQueryResult else .queryExecutor)⟩)
    ∧ (∀ (env : Env) (st : Stats) (ctx : Context),
        ctx.queryConfig.bind QueryConfigPayload.execute_sql_strategy ≠ some "disabled" →
        advance env ⟨st, ctx, .run .executeQueryChoice⟩ = ⟨st, ctx, .run .queryExecutor⟩)
    ∧ (∀ (env : Env) (st : Stats) (ctx : Context),
        ctx.queryConfig = none →
        advance env ⟨st, ctx, .run .executeQueryChoice⟩ = ⟨st, ctx, .run .queryExecutor⟩) := by
  refine ⟨rfl, fun env st ctx => stepExecGate env st ctx,
    fun env st ctx h => ?_, fun env st ctx h => ?_⟩
  · rw [stepExecGate]
    simp [h]
  · rw [stepExecGate]
    simp [h]

theorem executeGate_condition_witness :
    (Context.empty.queryConfig.bind QueryConfigPayload.execute_sql_strategy ≠ some "disabled")
    ∧ advance env0 ⟨Stats.zero, Context.empty, .run .executeQueryChoice⟩ =
        ⟨Stats.zero, Context.empty, .run .queryExecutor⟩ :=
  ⟨by decide, executeGate_condition.2.2.1 env0 Stats.zero Context.empty (by decide)⟩

/-- C6: every branch condition of the orchestration graph is a plain
single-field exact equality against a literal string or boolean (no
compound, range or partial matches), and every choice declares an
`otherwise` default branch. -/
theorem branchConditions_simple_with_otherwise :
    ∀ s : SfnState, nodeWellFormed (graph s) = true := by decide

/-- C7: the run starts at `reformulate_question`; every node is
reachable from the entry; every node reaches `publish_query_result`;
the only node without successors is `publish_query_result` (the sole
terminal); and the nodes lying on a cycle are exactly the three states
of the autocorrect loop (`iterator`, `is_count_reached`,
`generate_alternate_query`). -/
theorem graph_topology :
    (∀ ctx0 : Context, (initConfig ctx0).mode = .run .reformulateQuestion)
    ∧ (∀ s : SfnState, reachesN 17 .reformulateQuestion s = true)
    ∧ (∀ s : SfnState, reachesN 17 s .publishQueryResult = true)
    ∧ (∀ s : SfnState, succs s = [] ↔ s = .publishQueryResult)
    ∧ (∀ s : SfnState, onCycle s = true ↔
        (s = .iterator ∨ s = .isCountReached ∨ s = .alternateQueryGenerator)) :=
  ⟨fun _ => rfl, by decide, by decide, by decide, by decide⟩

/-- C8: supplying both members of any of the three mutually exclusive
database pairings makes construction fail with the corresponding
`validateDbProps` error (the validation runs at source line 280,
before any resource is instantiated, so the constructor error is
exactly the validation error); props violating no pairing pass
validation. -/
theorem validateDbProps_pairings :
    ∀ p : TextToSqlProps,
      (dbPairingViolated p = true →
        (errorOf (validateDbProps p)).isSome = true
        ∧ errorOf (textToSqlConstructor p) = errorOf (validateDbProps p))
      ∧ (dbPairingViolated p = false → validateDbProps p = .ok ()) := by
  decide

theorem validateDbProps_pairings_witness :
    ((errorOf (validateDbProps propsClusterClash)).isSome = true
      ∧ errorOf (textToSqlConstructor propsClusterClash) = errorOf (validateDbProps propsClusterClash))
    ∧ validateDbProps propsExistingCluster = .ok () :=
  ⟨(validateDbProps_pairings propsClusterClash).1 (by decide),
   (validateDbProps_pairings propsExistingCluster).2 (by decide)⟩

/-- C9: the claim says construction succeeds with an existing database
supplied and that the secret wired into the query-generator and
query-executor functions is then defined. The code contradicts it:
`this.secret` is assigned only in the default-database branch (source
line 350), yet `this.secret.secretArn` (source lines 533, 574) and
`this.secret.grantRead` (source lines 642-643) are used
unconditionally, so supplying `existingAuroraDbCluster` passes
validation, selects the existing cluster, and then crashes with a
`TypeError` on the undefined secret. -/
theorem secret_undefined_crash :
    validateDbProps propsExistingCluster = .ok ()
    ∧ selectDatabase propsExistingCluster =
        .ok ({ databaseCluster := some .existing, dbInstance := none }, false)
    ∧ textToSqlConstructor propsExistingCluster =
        .error "TypeError: Cannot read properties of undefined (reading secretArn)" :=
  ⟨rfl, rfl, rfl⟩

/-- C10 counterexample: with no database options and
`dbName = POSTGRESQL`, the default branch does not create a database
at all: `createAuroraCluster` throws `Invalid database name`, so no
database field is assigned, refuting the claim that a default database
is created for every validated props combination. -/
theorem defaultDb_postgresql_counterexample :
    validateDbProps propsDefaultPostgres = .ok ()
    ∧ selectDatabase propsDefaultPostgres = .error "Invalid database name"
    ∧ textToSqlConstructor propsDefaultPostgres = .error "Invalid database name" :=
  ⟨rfl, rfl, rfl⟩

/-- C10 (amended): database selection follows the fixed precedence
existing cluster, cluster props, existing instance, instance props,
default creation; the default creation succeeds only for
`DbName.MYSQL` (an RDS MySQL instance when `databaseType` is RDS, else
an Aurora MySQL cluster) and throws `Invalid database name` for
PostgreSQL; and every successful selection assigns exactly one of the
`databaseCluster` and `dbInstance` fields. -/
theorem databaseSelection_precedence :
    (∀ p : TextToSqlProps, p.existingAuroraDbCluster = true →
      selectDatabase p = .ok ({ databaseCluster := some .existing, dbInstance := none }, false))
    ∧ (∀ p : TextToSqlProps, p.existingAuroraDbCluster = false → p.databaseClusterProps = true →
      selectDatabase p = .ok ({ databaseCluster := some .fromProps, dbInstance := none }, false))
    ∧ (∀ p : TextToSqlProps, p.existingAuroraDbCluster = false → p.databaseClusterProps = false →
        p.existingRdsDbInstance = true →
      selectDatabase p = .ok ({ databaseCluster := none, dbInstance := some .existing }, false))
    ∧ (∀ p : TextToSqlProps, p.existingAuroraDbCluster = false → p.databaseClusterProps = false →
        p.existingRdsDbInstance = false → p.databaseInstanceProps = true →
      selectDatabase p = .ok ({ databaseCluster := none, dbInstance := some .fromProps }, false))
    ∧ (∀ p : TextToSqlProps, p.existingAuroraDbCluster = false → p.databaseClusterProps = false →
        p.existingRdsDbInstance = false → p.databaseInstanceProps = false →
        p.dbName = .MYSQL →
      selectDatabase p =
        .ok (if p.databaseType = some .RDS
             then ({ databaseCluster := none, dbInstance := some .defaultRdsMysql }, true)
             else ({ databaseCluster := some .defaultAuroraMysql, dbInstance := none }, true)))
    ∧ (∀ p : TextToSqlProps, p.existingAuroraDbCluster = false → p.databaseClusterProps = false →
        p.existingRdsDbInstance = false → p.databaseInstanceProps = false →
        p.dbName = .POSTGRESQL →
      selectDatabase p = .error "Invalid database name")
    ∧ (∀ p : TextToSqlProps, exactlyOneAssigned (selectDatabase p) = true) := by
  set_option maxRecDepth 4096 in
  exact ⟨by decide, by decide, by decide, by decide, by decide, by decide, by decide⟩

theorem databaseSelection_precedence_witness :
    selectDatabase propsExistingCluster =
      .ok ({ databaseCluster := some .existing, dbInstance := none }, false) :=
  databaseSelection_precedence.1 propsExistingCluster rfl

end TextToSql
